import Mathlib

/-!
Verification of the goldilocks home-climate advisory core against its
specification.  The JavaScript decision/estimation engine is shallowly
embedded: JS numbers are rationals (reals only for the transcendental
Magnus formula), nullable values are `Option`, and the one place where a
NaN can survive sanitation is modelled with an explicit NaN constructor.
-/

namespace Goldilocks

/-- JS `Math.round` on a rational: JS rounds half toward +infinity, which
is exactly `floor (x + 1/2)`.  `Rat.floor` is used so the definition
evaluates by kernel reduction. -/
def jround (q : ℚ) : ℤ := (q + 1/2).floor

/-- JS `Math.ceil`. -/
def jceil (q : ℚ) : ℤ := -(Rat.floor (-q))

/-! ## Mold Risk Engine (src/backend/logic/moldRisk.js) -/

/-- Risk / confidence levels used across the engine. -/
inductive Level where
  | UNKNOWN
  | NONE
  | LOW
  | MEDIUM
  | HIGH
deriving DecidableEq, Repr

/-- An indoor reading; only the nullable humidity field is consumed by
`computeMoldRisk`. -/
structure Reading where
  humidity_RH : Option ℚ
deriving DecidableEq, Repr

/-- The `stats` object of a MoldRiskResult.  `current_humidity` is an
`Option` because the no-valid-readings branch of the source builds the
stats object without that key (JS `undefined`), modelled as `none`. -/
structure MoldStats where
  minutes_over_60 : ℕ
  minutes_over_70 : ℕ
  minutes_60_70 : ℕ
  max_consecutive_over_70 : ℕ
  current_humidity : Option ℚ
  readingCount : ℕ
deriving DecidableEq, Repr

/-- The explanation string, modelled as a constructor per template with
the interpolated quantities as payloads (hours kept as exact rationals;
the source formats them with `toFixed(1)`). -/
inductive MoldExplanation where
  | noData
  | high (hours_over_70 : ℚ) (consec_hours : Option ℚ)
  | medium (hours_over_60 : ℚ)
  | low
deriving DecidableEq, Repr

structure MoldRiskResult where
  risk_level : Level
  risk_score : ℤ
  explanation : MoldExplanation
  stats : MoldStats
deriving DecidableEq, Repr

/-- Accumulator state of the single forward pass. -/
structure MoldAcc where
  m60 : ℕ
  m70 : ℕ
  m6070 : ℕ
  consec : ℕ
  maxConsec : ℕ
deriving DecidableEq, Repr

/-- One loop iteration of `computeMoldRisk` over a valid humidity value. -/
def moldStep (intervalMinutes : ℕ) (s : MoldAcc) (rh : ℚ) : MoldAcc :=
  if rh > 70 then
    let consec := s.consec + intervalMinutes
    { m60 := s.m60 + intervalMinutes
      m70 := s.m70 + intervalMinutes
      m6070 := s.m6070
      consec := consec
      maxConsec := max s.maxConsec consec }
  else if rh > 60 then
    { m60 := s.m60 + intervalMinutes
      m70 := s.m70
      m6070 := s.m6070 + intervalMinutes
      consec := 0
      maxConsec := s.maxConsec }
  else
    { s with consec := 0 }

/-- `computeMoldRisk` from src/backend/logic/moldRisk.js. -/
def computeMoldRisk (readings : List Reading) (intervalMinutes : ℕ := 1) :
    MoldRiskResult :=
  let valid := readings.filterMap (·.humidity_RH)
  match valid.getLast? with
  | none =>
      { risk_level := .UNKNOWN
        risk_score := 0
        explanation := .noData
        stats := { minutes_over_60 := 0, minutes_over_70 := 0,
                   minutes_60_70 := 0, max_consecutive_over_70 := 0,
                   current_humidity := none, readingCount := 0 } }
  | some lastRH =>
      let acc := valid.foldl (moldStep intervalMinutes) ⟨0, 0, 0, 0, 0⟩
      let stats : MoldStats :=
        { minutes_over_60 := acc.m60
          minutes_over_70 := acc.m70
          minutes_60_70 := acc.m6070
          max_consecutive_over_70 := acc.maxConsec
          current_humidity := some lastRH
          readingCount := valid.length }
      if acc.m70 > 180 ∨ acc.maxConsec > 90 then
        { risk_level := .HIGH
          risk_score := min 100 (60 + jround ((acc.m70 : ℚ) / 360 * 40))
          explanation := .high ((acc.m70 : ℚ) / 60)
            (if acc.maxConsec > 90 then some ((acc.maxConsec : ℚ) / 60) else none)
          stats := stats }
      else if acc.m60 > 60 then
        { risk_level := .MEDIUM
          risk_score := min 59 (25 + jround ((acc.m60 : ℚ) / 240 * 35))
          explanation := .medium ((acc.m60 : ℚ) / 60)
          stats := stats }
      else
        { risk_level := .LOW
          risk_score := min 24 (jround ((acc.m60 : ℚ) / 60 * 24))
          explanation := .low
          stats := stats }

/-! ## Electricity Rates (src/backend/logic/electricityRates.js) -/

inductive Season where
  | winter
  | summer
deriving DecidableEq, Repr

inductive DayType where
  | weekday
  | weekend
deriving DecidableEq, Repr

/-- One entry of a daily schedule; `stop` is the exclusive end hour
(the source calls this field `end`, a reserved word in Lean). -/
structure RatePeriod where
  start : ℕ
  stop : ℕ
  rate : ℚ
  label : String
deriving DecidableEq, Repr, Inhabited

/-- TOU rate table (Utilities Kingston, OEB Nov 1 2025 variant). -/
def TOU_RATES : Season → DayType → List RatePeriod
  | .winter, .weekday =>
      [⟨0, 7, 9.8, "Off-Peak"⟩, ⟨7, 11, 20.3, "On-Peak"⟩,
       ⟨11, 17, 15.7, "Mid-Peak"⟩, ⟨17, 19, 20.3, "On-Peak"⟩,
       ⟨19, 24, 9.8, "Off-Peak"⟩]
  | .winter, .weekend => [⟨0, 24, 9.8, "Off-Peak"⟩]
  | .summer, .weekday =>
      [⟨0, 7, 9.8, "Off-Peak"⟩, ⟨7, 11, 15.7, "Mid-Peak"⟩,
       ⟨11, 17, 20.3, "On-Peak"⟩, ⟨17, 19, 15.7, "Mid-Peak"⟩,
       ⟨19, 24, 9.8, "Off-Peak"⟩]
  | .summer, .weekend => [⟨0, 24, 9.8, "Off-Peak"⟩]

/-- ULO rate table (same rates in both seasons in the source). -/
def ULO_RATES : Season → DayType → List RatePeriod
  | _, .weekday =>
      [⟨0, 7, 3.9, "Ultra-Low Overnight"⟩, ⟨7, 16, 15.7, "Mid-Peak"⟩,
       ⟨16, 21, 39.1, "On-Peak"⟩, ⟨21, 23, 15.7, "Mid-Peak"⟩,
       ⟨23, 24, 3.9, "Ultra-Low Overnight"⟩]
  | _, .weekend =>
      [⟨0, 7, 3.9, "Ultra-Low Overnight"⟩, ⟨7, 23, 9.8, "Weekend Off-Peak"⟩,
       ⟨23, 24, 3.9, "Ultra-Low Overnight"⟩]

structure TieredSeason where
  tier1_threshold_kWh : ℕ
  tier1_rate : ℚ
  tier2_rate : ℚ
deriving DecidableEq, Repr

def TIERED_RATES : Season → TieredSeason
  | .winter => ⟨1000, 10.3, 12.5⟩
  | .summer => ⟨600, 10.3, 12.5⟩

/-- The fields of a JS `Date` consumed by the rate resolver:
`getMonth()` (0–11), `getDay()` (0–6, Sunday = 0), `getHours()` (0–23). -/
structure JsDate where
  month : Fin 12
  day : Fin 7
  hours : Fin 24
deriving DecidableEq, Repr

/-- `getSeason`: month 5–10 (1-based) is summer, else winter. -/
def getSeason (d : JsDate) : Season :=
  if 5 ≤ d.month.val + 1 ∧ d.month.val + 1 ≤ 10 then .summer else .winter

/-- `isWeekend`: Saturday or Sunday. -/
def isWeekend (d : JsDate) : Bool :=
  decide (d.day.val = 0 ∨ d.day.val = 6)

structure TouRateResult where
  price_cents_per_kWh : ℚ
  periodLabel : String
deriving DecidableEq, Repr

/-- The `for`/`if` scan of `getTimeOfUseRate` over a schedule. -/
def findPeriod (schedule : List RatePeriod) (hour : ℕ) : Option RatePeriod :=
  schedule.find? (fun p => decide (p.start ≤ hour ∧ hour < p.stop))

/-- `getTimeOfUseRate`: scan the season/day-type schedule for the period
containing the hour; fall back to the schedule head if none matches. -/
def getTimeOfUseRate (planRates : Season → DayType → List RatePeriod)
    (d : JsDate) : TouRateResult :=
  let schedule := planRates (getSeason d) (if isWeekend d then .weekend else .weekday)
  match findPeriod schedule d.hours.val with
  | some p => ⟨p.rate, p.label⟩
  | none => ⟨schedule.headI.rate, schedule.headI.label⟩

inductive PlanType where
  | TOU
  | ULO
  | TIERED
  | unknown
deriving DecidableEq, Repr

/-- The object returned by `getCurrentRate`; the tier fields are only
present (`some`) on the TIERED branch. -/
structure RateInfo where
  price_cents_per_kWh : ℚ
  periodLabel : String
  planType : PlanType
  season : Season
  tier2_rate : Option ℚ := none
  tier1_threshold_kWh : Option ℕ := none
deriving DecidableEq, Repr

/-- `getCurrentRate`: dispatch on plan type; unknown plans default to TOU. -/
def getCurrentRate (planType : PlanType) (d : JsDate) : RateInfo :=
  let season := getSeason d
  match planType with
  | .TOU =>
      let r := getTimeOfUseRate TOU_RATES d
      { price_cents_per_kWh := r.price_cents_per_kWh, periodLabel := r.periodLabel,
        planType := .TOU, season := season }
  | .ULO =>
      let r := getTimeOfUseRate ULO_RATES d
      { price_cents_per_kWh := r.price_cents_per_kWh, periodLabel := r.periodLabel,
        planType := .ULO, season := season }
  | .TIERED =>
      let t := TIERED_RATES season
      { price_cents_per_kWh := t.tier1_rate,
        periodLabel := match season with
          | .winter => "Tier 1 (up to 1000 kWh/mo)"
          | .summer => "Tier 1 (up to 600 kWh/mo)",
        planType := .TIERED, season := season,
        tier2_rate := some t.tier2_rate,
        tier1_threshold_kWh := some t.tier1_threshold_kWh }
  | .unknown =>
      let r := getTimeOfUseRate TOU_RATES d
      { price_cents_per_kWh := r.price_cents_per_kWh, periodLabel := r.periodLabel,
        planType := .TOU, season := season }

/-! ## Cost and Savings Model (costSavings) -/

inductive HousingType where
  | dorm
  | apartment
  | house
  | basement
  | other
deriving DecidableEq, Repr

structure HousingProfile where
  volume : ℚ
  k : ℚ
deriving DecidableEq, Repr

def HOUSING_PROFILES : HousingType → HousingProfile
  | .dorm => ⟨30, 5⟩
  | .apartment => ⟨45, 5⟩
  | .house => ⟨80, 7⟩
  | .basement => ⟨35, 7⟩
  | .other => ⟨40, 5⟩

/-- `kWhPerDegC`: k × 0.000335 × V for the housing profile. -/
def kWhPerDegC (housing_type : HousingType) : ℚ :=
  (HOUSING_PROFILES housing_type).k * 0.000335 * (HOUSING_PROFILES housing_type).volume

/-- JS `Math.round(x * 10000) / 10000` (4-decimal dollar rounding). -/
def round4 (q : ℚ) : ℚ := (jround (q * 10000) : ℚ) / 10000

/-- JS `Math.round(x * 1000) / 1000` (3-decimal kWh rounding). -/
def round3 (q : ℚ) : ℚ := (jround (q * 1000) : ℚ) / 1000

/-- JS `Math.round(x * 10) / 10` (1-decimal rounding). -/
def round1 (q : ℚ) : ℚ := (jround (q * 10) : ℚ) / 10

inductive HvacMode where
  | AC
  | HEAT
  | NONE
deriving DecidableEq, Repr

/-- Input record of `estimateCost`; `kWh_per_degC = some 0` is falsy in
JS (`kWh_per_degC || kWhPerDegC(...)`) and falls back to the profile. -/
structure CostInput where
  Tin : ℚ
  target : ℚ
  price_cents_per_kWh : ℚ
  kWh_per_degC : Option ℚ := none
  ac_cop : ℚ := 2.5
  housing_type : HousingType := .apartment
deriving DecidableEq, Repr

structure CostAssumptions where
  kWh_per_degC : ℚ
  ac_cop : ℚ
  room_volume_m3 : ℚ
  furnishing_factor : ℚ
deriving DecidableEq, Repr

structure CostEstimate where
  cost_heat : ℚ
  cost_ac : ℚ
  cost_window : ℚ
  hvac_cost : ℚ
  savings : ℚ
  deltaT : ℚ
  kWh_room : ℚ
  mode : HvacMode
  assumptions : CostAssumptions
deriving DecidableEq, Repr

/-- `estimateCost` from the cost/savings module. -/
def estimateCost (i : CostInput) : CostEstimate :=
  let effectiveKwh :=
    match i.kWh_per_degC with
    | some q => if q = 0 then kWhPerDegC i.housing_type else q
    | none => kWhPerDegC i.housing_type
  let deltaT := |i.target - i.Tin|
  let kWh_room := effectiveKwh * deltaT
  let cost_heat := kWh_room * (i.price_cents_per_kWh / 100)
  let cost_ac := kWh_room / i.ac_cop * (i.price_cents_per_kWh / 100)
  let cost_window : ℚ := 0
  let hvac_cost :=
    if i.Tin > i.target then cost_ac else if i.Tin < i.target then cost_heat else 0
  let mode : HvacMode :=
    if i.Tin > i.target then .AC else if i.Tin < i.target then .HEAT else .NONE
  let savings := hvac_cost - cost_window
  { cost_heat := round4 cost_heat
    cost_ac := round4 cost_ac
    cost_window := cost_window
    hvac_cost := round4 hvac_cost
    savings := round4 savings
    deltaT := round1 deltaT
    kWh_room := round3 kWh_room
    mode := mode
    assumptions :=
      { kWh_per_degC := round4 effectiveKwh
        ac_cop := i.ac_cop
        room_volume_m3 := (HOUSING_PROFILES i.housing_type).volume
        furnishing_factor := (HOUSING_PROFILES i.housing_type).k } }

/-! ## Humidity Estimator (humidityEstimator, appended in weather.js)

The Magnus formula involves `exp`, so this component is embedded over the
reals; null inputs are `none` (the NaN guard of the source has no separate
representative in this model, its branch is kept for shape). -/

/-- `saturationVaporPressure`: Magnus formula, in hPa. -/
noncomputable def saturationVaporPressure (tempC : ℝ) : ℝ :=
  6.112 * Real.exp ((17.67 * tempC) / (tempC + 243.5))

/-- The pre-boost estimate `(eActual / eSatIn) * 100` (the source exposes
the same quantity, percent-rounded, as `details.baseEstimate`). -/
noncomputable def preBoostEstimate (indoorTempC outdoorTempC outdoorRH : ℝ) : ℝ :=
  (outdoorRH / 100) * saturationVaporPressure outdoorTempC
    / saturationVaporPressure indoorTempC * 100

inductive EstMethod where
  | missing_data
  | invalid_data
  | magnus_estimate
deriving DecidableEq, Repr

structure HumidityEstimate where
  humidity_RH : Option ℝ
  confidence : Level
  method : EstMethod

/-- JS `Math.round` over the reals. -/
noncomputable def jroundR (x : ℝ) : ℝ := ((⌊x + 1/2⌋ : ℤ) : ℝ)

/-- `estimateIndoorHumidity` from the humidity estimator module. -/
noncomputable def estimateIndoorHumidity
    (indoorTempC outdoorTempC outdoorRH : Option ℝ)
    (moistureBoostPct : ℝ := 8) : HumidityEstimate :=
  match indoorTempC, outdoorTempC, outdoorRH with
  | some tin, some tout, some rh =>
      let estimatedRH := preBoostEstimate tin tout rh + moistureBoostPct
      let clamped := max 0 (min 100 estimatedRH)
      let deltaT := |tin - tout|
      let confidence : Level :=
        if deltaT < 5 then .HIGH else if deltaT < 15 then .MEDIUM else .LOW
      { humidity_RH := some (jroundR (clamped * 10) / 10)
        confidence := confidence
        method := .magnus_estimate }
  | _, _, _ => { humidity_RH := none, confidence := .NONE, method := .missing_data }

/-! ## Recommendation Engine (src/backend/logic/recommendation.js)

JS values feeding the numeric-sanitation step are modelled by `JVal`
(number / NaN / null-or-other-non-number); the sanitized price keeps a NaN
alternative (`JNum`) because the source checks only `typeof`, not `isNaN`,
for the price.  Reason strings and tips are modelled as constructors
carrying the interpolated quantities. -/

inductive JVal where
  | num (q : ℚ)
  | nan
  | nullv
deriving DecidableEq, Repr

inductive JNum where
  | num (q : ℚ)
  | nan
deriving DecidableEq, Repr

/-- `typeof x === 'number' && !isNaN(x) ? x : dflt`. -/
def sanTemp (dflt : ℚ) : JVal → ℚ
  | .num q => q
  | _ => dflt

/-- `(typeof x === 'number' && !isNaN(x)) ? x : null`. -/
def sanRH : JVal → Option ℚ
  | .num q => some q
  | _ => none

/-- `typeof price === 'number' ? price : 10` — note: no `isNaN` check, so
a NaN price survives sanitation. -/
def sanPrice : JVal → JNum
  | .num q => .num q
  | .nan => .nan
  | .nullv => .num 10

/-- JS `p >= c` where `p` may be NaN (any comparison with NaN is false). -/
def JNum.geB (p : JNum) (c : ℚ) : Bool :=
  match p with
  | .num q => decide (q ≥ c)
  | .nan => false

/-- JS `p <= c` where `p` may be NaN. -/
def JNum.leB (p : JNum) (c : ℚ) : Bool :=
  match p with
  | .num q => decide (q ≤ c)
  | .nan => false

/-- JS `x > c` where `x` may be null (`null > c` is false). -/
def optGt (x : Option ℚ) (c : ℚ) : Bool :=
  match x with
  | some v => decide (v > c)
  | none => false

/-- One forecast entry as consumed by the engine (`dtMs` is the epoch
milliseconds of `dt_txt`). -/
structure ForecastEntry where
  dtMs : ℤ
  temp_C : ℚ
  humidity_RH : ℚ
  description : String
  pop : ℚ
deriving DecidableEq, Repr

/-- Does the character list `hay` start with `needle`? -/
def charsStartWith : List Char → List Char → Bool
  | [], _ => true
  | _ :: _, [] => false
  | a :: as, b :: bs => a == b && charsStartWith as bs

/-- JS `String.prototype.includes`. -/
def strIncludes (hay needle : String) : Bool :=
  hay.data.tails.any (fun t => charsStartWith needle.data t)

/-- `isRainExpected` from src/backend/logic/weather.js. -/
def isRainExpected (forecast : List ForecastEntry) : Bool :=
  forecast.any (fun f => decide (f.pop > 0.4) || strIncludes f.description "rain")

/-- The `proactive_tip` strings, as constructors with their interpolated
quantities. -/
inductive Tip where
  | rainSoon (hoursUntil : ℤ)
  | mildWindow (dtMs : ℤ) (temp_C : ℚ) (humidity_RH : ℚ)
deriving DecidableEq, Repr

/-- `getForecastTip`: rain within the first 3 entries wins, else a
dry-and-mild window within the first 4 entries, else nothing. -/
def getForecastTip (now : ℤ) (forecast : List ForecastEntry) : Option Tip :=
  match forecast.enum.find? (fun p => decide (p.1 < 3) && decide (p.2.pop > 0.4)) with
  | some (_, f) => some (.rainSoon (max 1 (jceil (((f.dtMs - now : ℤ) : ℚ) / 3600000))))
  | none =>
      match forecast.enum.find? (fun p => decide (p.1 < 4) &&
          decide (p.2.humidity_RH < 55 ∧ p.2.temp_C > 5 ∧ p.2.temp_C < 28)) with
      | some (_, f) => some (.mildWindow f.dtMs f.temp_C f.humidity_RH)
      | none => none

inductive BandPeriod where
  | day
  | night
deriving DecidableEq, Repr

structure ComfortBand where
  lo : ℚ
  hi : ℚ
  period : BandPeriod
deriving DecidableEq, Repr

/-- `getComfortBand`: the night band applies for hours in [22,24) ∪ [0,7)
when both night values are present. -/
def getComfortBand (comfort_min comfort_max : ℚ)
    (comfort_min_night comfort_max_night : Option ℚ) (hour : Fin 24) : ComfortBand :=
  if hour.val ≥ 22 ∨ hour.val < 7 then
    match comfort_min_night, comfort_max_night with
    | some nmin, some nmax => ⟨nmin, nmax, .night⟩
    | _, _ => ⟨comfort_min, comfort_max, .day⟩
  else ⟨comfort_min, comfort_max, .day⟩

/-- `RHin !== null && RHout !== null ? RHout < RHin : null`. -/
def outdoorDrier (rhin rhout : Option ℚ) : Option Bool :=
  match rhin, rhout with
  | some ri, some ro => some (decide (ro < ri))
  | _, _ => none

inductive RecState where
  | OPEN_WINDOW
  | USE_AC
  | USE_HEAT
  | DO_NOTHING
deriving DecidableEq, Repr

/-- The reason strings, as constructors with their interpolated
quantities (prices keep their possibly-NaN sanitized value). -/
inductive Reason where
  | ventHumidity (rhin : ℚ)
  | outsideDrier (rhout : ℚ)
  | rainSoonNote
  | comfortZone (lo hi : ℚ)
  | moldModerate
  | moldHighVent
  | moldOutsideDrier (rhout rhin : Option ℚ)
  | coolerOutside (diff tout tin : ℚ)
  | alsoDrier (rhout rhin : Option ℚ)
  | expensiveOpenWindow (label : String) (price : JNum)
  | rainForecastNote
  | aboveComfort (tin hi : ℚ)
  | outsideWontCool (tout : ℚ)
  | acCostly (label : String) (price : JNum)
  | cheapElectricity (price : JNum)
  | warmerOutside (diff tout tin : ℚ)
  | expensiveSaveByOpening (label : String)
  | belowComfort (tin lo : ℚ)
  | outsideWontWarm (tout : ℚ)
  | heatingExpensive (label : String) (price : JNum)
  | considerLayering
  | cheapGoodTimeToHeat (price : JNum)
  | borderline
deriving DecidableEq, Repr

structure Recommendation where
  state : RecState
  confidence : Level
  reasons : List Reason
  proactive_tip : Option Tip
  humidity_tip : Option ℚ := none
  comfort_period : BandPeriod
deriving DecidableEq, Repr

/-- The raw input object of `getRecommendation`, with the JS parameter
defaults. -/
structure RecInput where
  Tin : JVal
  RHin : JVal
  Tout : JVal
  RHout : JVal
  comfort_min : ℚ := 20
  comfort_max : ℚ := 23
  comfort_min_night : Option ℚ := none
  comfort_max_night : Option ℚ := none
  price_cents_per_kWh : JVal := .num 10
  periodLabel : String := ""
  forecast : List ForecastEntry := []
  moldRiskLevel : Level := .LOW
deriving DecidableEq, Repr

/-- The input after the numeric-sanitation step. -/
structure RecInputSan where
  Tin : ℚ
  Tout : ℚ
  RHin : Option ℚ
  RHout : Option ℚ
  comfort_min : ℚ
  comfort_max : ℚ
  comfort_min_night : Option ℚ
  comfort_max_night : Option ℚ
  price_cents_per_kWh : JNum
  periodLabel : String
  forecast : List ForecastEntry
  moldRiskLevel : Level
deriving DecidableEq, Repr

/-- The numeric-sanitation step (lines 56–61 of recommendation.js). -/
def sanitizeRec (i : RecInput) : RecInputSan :=
  { Tin := sanTemp 21 i.Tin
    Tout := sanTemp 10 i.Tout
    RHin := sanRH i.RHin
    RHout := sanRH i.RHout
    comfort_min := i.comfort_min
    comfort_max := i.comfort_max
    comfort_min_night := i.comfort_min_night
    comfort_max_night := i.comfort_max_night
    price_cents_per_kWh := sanPrice i.price_cents_per_kWh
    periodLabel := i.periodLabel
    forecast := i.forecast
    moldRiskLevel := i.moldRiskLevel }

/-- The decision logic of `getRecommendation` after sanitation.  `hour`
and `now` are the ambient clock values the source reads via `new Date()`
and `Date.now()`. -/
def recommendCore (i : RecInputSan) (hour : Fin 24) (now : ℤ) : Recommendation :=
  let band := getComfortBand i.comfort_min i.comfort_max
    i.comfort_min_night i.comfort_max_night hour
  let target := (band.lo + band.hi) / 2
  let od := outdoorDrier i.RHin i.RHout
  let rainComing := isRainExpected i.forecast
  let isExpensive := i.price_cents_per_kWh.geB 15
  let isCheap := i.price_cents_per_kWh.leB 5
  let tip := getForecastTip now i.forecast
  if decide (band.lo ≤ i.Tin ∧ i.Tin ≤ band.hi) && !(i.moldRiskLevel == .HIGH) then
    if optGt i.RHin 60 && (od == some true) && !rainComing then
      { state := .OPEN_WINDOW, confidence := .MEDIUM,
        reasons := [.ventHumidity (i.RHin.getD 0), .outsideDrier (i.RHout.getD 0)]
          ++ (if rainComing then [.rainSoonNote] else []),
        proactive_tip := tip, comfort_period := band.period }
    else
      { state := .DO_NOTHING, confidence := .HIGH,
        reasons := [.comfortZone band.lo band.hi]
          ++ (if i.moldRiskLevel == .MEDIUM then [.moldModerate] else []),
        proactive_tip := tip, comfort_period := band.period }
  else if (i.moldRiskLevel == .HIGH) && !(od == some false) && !rainComing then
    { state := .OPEN_WINDOW, confidence := .HIGH,
      reasons := [.moldHighVent]
        ++ (if od == some true then [.moldOutsideDrier i.RHout i.RHin] else []),
      proactive_tip := tip, comfort_period := band.period }
  else if decide (i.Tin > band.hi) then
    if decide (i.Tout < i.Tin) && decide (|i.Tout - target| < |i.Tin - target|)
        && !rainComing then
      { state := .OPEN_WINDOW,
        confidence := if !(od == some false) then .HIGH else .MEDIUM,
        reasons := [.coolerOutside (i.Tin - i.Tout) i.Tout i.Tin]
          ++ (if od == some true then [.alsoDrier i.RHout i.RHin] else [])
          ++ (if isExpensive then
                [.expensiveOpenWindow i.periodLabel i.price_cents_per_kWh] else [])
          ++ (if rainComing then [.rainForecastNote] else []),
        proactive_tip := tip, comfort_period := band.period }
    else
      { state := .USE_AC, confidence := .HIGH,
        reasons := [.aboveComfort i.Tin band.hi, .outsideWontCool i.Tout]
          ++ (if isExpensive then [.acCostly i.periodLabel i.price_cents_per_kWh]
              else if isCheap then [.cheapElectricity i.price_cents_per_kWh] else []),
        proactive_tip := tip,
        humidity_tip := if optGt i.RHin 60 then some (i.RHin.getD 0) else none,
        comfort_period := band.period }
  else if decide (i.Tin < band.lo) then
    if decide (i.Tout > i.Tin) && decide (|i.Tout - target| < |i.Tin - target|)
        && !rainComing then
      { state := .OPEN_WINDOW, confidence := .MEDIUM,
        reasons := [.warmerOutside (i.Tout - i.Tin) i.Tout i.Tin]
          ++ (if isExpensive then [.expensiveSaveByOpening i.periodLabel] else []),
        proactive_tip := tip, comfort_period := band.period }
    else
      { state := .USE_HEAT, confidence := .HIGH,
        reasons := [.belowComfort i.Tin band.lo, .outsideWontWarm i.Tout]
          ++ (if isExpensive then
                [.heatingExpensive i.periodLabel i.price_cents_per_kWh,
                 .considerLayering]
              else if isCheap then
                [.cheapGoodTimeToHeat i.price_cents_per_kWh] else []),
        proactive_tip := tip, comfort_period := band.period }
  else
    { state := .DO_NOTHING, confidence := .LOW, reasons := [.borderline],
      proactive_tip := tip, comfort_period := band.period }

/-- `getRecommendation`: sanitize, then decide. -/
def getRecommendation (i : RecInput) (hour : Fin 24) (now : ℤ) : Recommendation :=
  recommendCore (sanitizeRec i) hour now

/-- End-to-end scenario C of the spec: comfortable temperature, high
indoor humidity, HIGH mold risk, drier outside, empty forecast. -/
def scenarioC : RecInput :=
  { Tin := .num 21, RHin := .num 75, Tout := .num 10, RHout := .num 40,
    moldRiskLevel := .HIGH }

/-- An input with a night comfort band whose result depends on the
ambient clock hour: Tin 16 is inside the night band [15,18] but below
the day band [20,23]. -/
def scenarioNight : RecInput :=
  { Tin := .num 16, RHin := .nullv, Tout := .num 10, RHout := .nullv,
    comfort_min_night := some 15, comfort_max_night := some 18 }

/-- Scenario D of the spec: 200 consecutive minutes at exactly 75% RH,
then a drop to 30%. -/
def scenarioD : List Reading :=
  List.replicate 200 ⟨some 75⟩ ++ [⟨some 30⟩]

/-- Boundary reading sequence of the spec: [59.9, 60.0, 60.1, 70.0, 70.1]. -/
def boundaryReadings : List Reading :=
  [⟨some (599/10)⟩, ⟨some 60⟩, ⟨some (601/10)⟩, ⟨some 70⟩, ⟨some (701/10)⟩]

/-- The schedule `getTimeOfUseRate` selects for a date. -/
def selectedSchedule (planRates : Season → DayType → List RatePeriod)
    (d : JsDate) : List RatePeriod :=
  planRates (getSeason d) (if isWeekend d then .weekend else .weekday)

/-- The property bundle checked for each TOU/ULO schedule position:
exactly one period matches the hour, the scan finds one, and the result
is that period's rate and label. -/
def touCoverageAt (planRates : Season → DayType → List RatePeriod)
    (d : JsDate) : Prop :=
  (selectedSchedule planRates d).countP
      (fun p => decide (p.start ≤ d.hours.val ∧ d.hours.val < p.stop)) = 1 ∧
  (findPeriod (selectedSchedule planRates d) d.hours.val).isSome = true ∧
  getTimeOfUseRate planRates d =
    ⟨((findPeriod (selectedSchedule planRates d) d.hours.val).getD default).rate,
     ((findPeriod (selectedSchedule planRates d) d.hours.val).getD default).label⟩

instance (planRates : Season → DayType → List RatePeriod) (d : JsDate) :
    Decidable (touCoverageAt planRates d) := by
  unfold touCoverageAt
  infer_instance

/-- The input record of `estimateCost` for the claims below (defaults:
no kWh override, COP 2.5). -/
def mkCostInput (tin tgt price : ℚ) (ht : HousingType) : CostInput :=
  { Tin := tin, target := tgt, price_cents_per_kWh := price, housing_type := ht }

/-- An input whose four sensor values are null/NaN and whose price is
null. -/
def badInput : RecInput :=
  { Tin := .nan, RHin := .nan, Tout := .nullv, RHout := .nullv,
    price_cents_per_kWh := .nullv }

/-- An input whose price is NaN (sensor values valid). -/
def nanPriceInput : RecInput :=
  { Tin := .num 21, RHin := .nullv, Tout := .num 10, RHout := .nullv,
    price_cents_per_kWh := .nan }

/-- Cost-model input at 20 degrees with a 21-degree target (heating,
one degree). -/
def costHeat1 : CostInput :=
  { Tin := 20, target := 21, price_cents_per_kWh := 10 }

/-- Cost-model input at 22 degrees with a 20-degree target (cooling,
two degrees). -/
def costCool2 : CostInput :=
  { Tin := 22, target := 20, price_cents_per_kWh := 10 }

/-! ## Lemmas about the arithmetic helpers -/

theorem jround_eq_floor (q : ℚ) : jround q = ⌊q + 1/2⌋ := by
  rw [jround, Rat.floor_def', Rat.floor_def]

theorem jround_nonneg {q : ℚ} (h : 0 ≤ q) : 0 ≤ jround q := by
  rw [jround_eq_floor]
  have h0 : (0 : ℤ) = ⌊(0 : ℚ)⌋ := by simp
  rw [h0]
  exact Int.floor_le_floor (by linarith)

theorem jround_mono {a b : ℚ} (h : a ≤ b) : jround a ≤ jround b := by
  rw [jround_eq_floor, jround_eq_floor]
  exact Int.floor_le_floor (by linarith)

theorem round4_mono {a b : ℚ} (h : a ≤ b) : round4 a ≤ round4 b := by
  unfold round4
  have := jround_mono (mul_le_mul_of_nonneg_right h (by norm_num : (0:ℚ) ≤ 10000))
  have hc : ((jround (a * 10000) : ℚ)) ≤ (jround (b * 10000) : ℚ) := by
    exact_mod_cast this
  exact div_le_div_of_nonneg_right hc (by norm_num) |>.trans_eq rfl

theorem kWhPerDegC_nonneg (ht : HousingType) : 0 ≤ kWhPerDegC ht := by
  cases ht <;> norm_num [kWhPerDegC, HOUSING_PROFILES]

/-! ## Claim C3 -/

set_option maxRecDepth 100000 in
/-- C3: computeMoldRisk returns risk_level HIGH iff minutes_over_70 > 180
or max_consecutive_over_70 > 90, in which case the risk score is
min(100, 60 + round(minutes_over_70/360*40)); the 200-minutes-at-75%
scenario yields HIGH with both counters 200 and score 82. -/
theorem claim_C3_mold_high_iff (readings : List Reading) (iv : ℕ) :
    ((computeMoldRisk readings iv).risk_level = .HIGH ↔
      (computeMoldRisk readings iv).stats.minutes_over_70 > 180 ∨
        (computeMoldRisk readings iv).stats.max_consecutive_over_70 > 90) ∧
    ((computeMoldRisk readings iv).risk_level = .HIGH →
      (computeMoldRisk readings iv).risk_score =
        min 100 (60 + jround
          (((computeMoldRisk readings iv).stats.minutes_over_70 : ℚ) / 360 * 40))) ∧
    (computeMoldRisk scenarioD 1).risk_level = .HIGH ∧
    (computeMoldRisk scenarioD 1).stats.minutes_over_70 = 200 ∧
    (computeMoldRisk scenarioD 1).stats.max_consecutive_over_70 = 200 ∧
    (computeMoldRisk scenarioD 1).risk_score = 82 := by
  refine ⟨?_, ?_, ?_, ?_, ?_, ?_⟩
  · cases hv : (readings.filterMap (·.humidity_RH)).getLast? with
    | none => simp [computeMoldRisk, hv]
    | some lastRH =>
        simp only [computeMoldRisk, hv]
        split_ifs with h1 h2 <;> simp_all
  · cases hv : (readings.filterMap (·.humidity_RH)).getLast? with
    | none => simp [computeMoldRisk, hv]
    | some lastRH =>
        simp only [computeMoldRisk, hv]
        split_ifs with h1 h2 <;> simp_all
  · with_unfolding_all decide
  · with_unfolding_all decide
  · with_unfolding_all decide
  · with_unfolding_all decide

/-- Witness for C3: the scenario-D input satisfies the HIGH hypothesis,
and the theorem then gives its risk-score equation. -/
theorem claim_C3_witness :
    (computeMoldRisk scenarioD 1).risk_score =
      min 100 (60 + jround
        (((computeMoldRisk scenarioD 1).stats.minutes_over_70 : ℚ) / 360 * 40)) :=
  (claim_C3_mold_high_iff scenarioD 1).2.1 (claim_C3_mold_high_iff scenarioD 1).2.2.1

/-! ## Claim C4 -/

/-- C4: band classification is strict at both thresholds — a reading of
exactly 60 only resets the consecutive counter, a reading of exactly 70
increments minutes_over_60 and minutes_60_70 only; the boundary sequence
[59.9, 60.0, 60.1, 70.0, 70.1] gives minutes_over_60 = 3 and
minutes_over_70 = 1. -/
theorem claim_C4_strict_boundaries (iv : ℕ) (s : MoldAcc) :
    moldStep iv s 60 = { s with consec := 0 } ∧
    moldStep iv s 70 =
      { s with m60 := s.m60 + iv, m6070 := s.m6070 + iv, consec := 0 } ∧
    (computeMoldRisk boundaryReadings 1).stats.minutes_over_60 = 3 ∧
    (computeMoldRisk boundaryReadings 1).stats.minutes_over_70 = 1 := by
  refine ⟨?_, ?_, ?_, ?_⟩
  · rw [moldStep, if_neg (by norm_num), if_neg (by norm_num)]
  · rw [moldStep, if_neg (by norm_num), if_pos (by norm_num)]
  · with_unfolding_all decide
  · with_unfolding_all decide

/-! ## Claim C9 (corrected) -/

/-- C9 counterexample: in the no-valid-humidity case the stats object
does not carry a `current_humidity` field (it is JS `undefined`, modelled
`none`), unlike the non-empty case where the field is present. -/
theorem claim_C9_counterexample :
    (computeMoldRisk ([] : List Reading) 1).stats.current_humidity = none ∧
    (computeMoldRisk [⟨none⟩] 1).stats.current_humidity = none ∧
    (computeMoldRisk [⟨some 50⟩] 1).stats.current_humidity = some 50 := by
  exact ⟨rfl, rfl, rfl⟩

/-- C9 (amended): with no non-null humidity readings, computeMoldRisk
totally returns UNKNOWN with score 0, the no-data explanation, zeroed
minute counters and reading count — and no current_humidity value. -/
theorem claim_C9_unknown_on_empty (readings : List Reading) (iv : ℕ)
    (h : ∀ r ∈ readings, r.humidity_RH = none) :
    computeMoldRisk readings iv =
      { risk_level := .UNKNOWN, risk_score := 0, explanation := .noData,
        stats := { minutes_over_60 := 0, minutes_over_70 := 0, minutes_60_70 := 0,
                   max_consecutive_over_70 := 0, current_humidity := none,
                   readingCount := 0 } } := by
  have hf : readings.filterMap (·.humidity_RH) = [] :=
    List.filterMap_eq_nil_iff.mpr h
  simp [computeMoldRisk, hf]

/-- Witness for C9: a singleton null-humidity reading sequence. -/
theorem claim_C9_witness :
    computeMoldRisk [(⟨none⟩ : Reading)] 1 =
      { risk_level := .UNKNOWN, risk_score := 0, explanation := .noData,
        stats := { minutes_over_60 := 0, minutes_over_70 := 0, minutes_60_70 := 0,
                   max_consecutive_over_70 := 0, current_humidity := none,
                   readingCount := 0 } } :=
  claim_C9_unknown_on_empty [⟨none⟩] 1 (by decide)

/-! ## Claim C10 -/

/-- C10: with at least one valid reading, the risk score lies in the band
of its risk level — LOW in [0,24], MEDIUM in [25,59], HIGH in [60,100] —
so the level is recoverable from the score and the score never exceeds
100. -/
theorem scoreHighBounds (m : ℕ) :
    60 ≤ min 100 (60 + jround ((m : ℚ) / 360 * 40)) ∧
    min 100 (60 + jround ((m : ℚ) / 360 * 40)) ≤ 100 := by
  have hj : 0 ≤ jround ((m : ℚ) / 360 * 40) := jround_nonneg (by positivity)
  exact ⟨le_min (by norm_num) (by omega), min_le_left _ _⟩

theorem scoreMediumBounds (m : ℕ) :
    25 ≤ min 59 (25 + jround ((m : ℚ) / 240 * 35)) ∧
    min 59 (25 + jround ((m : ℚ) / 240 * 35)) ≤ 59 := by
  have hj : 0 ≤ jround ((m : ℚ) / 240 * 35) := jround_nonneg (by positivity)
  exact ⟨le_min (by norm_num) (by omega), min_le_left _ _⟩

theorem scoreLowBounds (m : ℕ) :
    0 ≤ min 24 (jround ((m : ℚ) / 60 * 24)) ∧
    min 24 (jround ((m : ℚ) / 60 * 24)) ≤ 24 := by
  have hj : 0 ≤ jround ((m : ℚ) / 60 * 24) := jround_nonneg (by positivity)
  exact ⟨le_min (by norm_num) hj, min_le_left _ _⟩

theorem claim_C10_score_bands (readings : List Reading) (iv : ℕ)
    (h : readings.filterMap (·.humidity_RH) ≠ []) :
    ((computeMoldRisk readings iv).risk_level = .LOW →
      0 ≤ (computeMoldRisk readings iv).risk_score ∧
      (computeMoldRisk readings iv).risk_score ≤ 24) ∧
    ((computeMoldRisk readings iv).risk_level = .MEDIUM →
      25 ≤ (computeMoldRisk readings iv).risk_score ∧
      (computeMoldRisk readings iv).risk_score ≤ 59) ∧
    ((computeMoldRisk readings iv).risk_level = .HIGH →
      60 ≤ (computeMoldRisk readings iv).risk_score ∧
      (computeMoldRisk readings iv).risk_score ≤ 100) := by
  cases hv : (readings.filterMap (·.humidity_RH)).getLast? with
  | none => exact absurd (List.getLast?_eq_none_iff.mp hv) h
  | some lastRH =>
      simp only [computeMoldRisk, hv]
      split_ifs <;>
        first
          | exact ⟨by simp, by simp, fun _ => scoreHighBounds _⟩
          | exact ⟨by simp, fun _ => scoreMediumBounds _, by simp⟩
          | exact ⟨fun _ => scoreLowBounds _, by simp, by simp⟩

/-- Witness for C10: a single 50% reading is LOW with score in [0,24]. -/
theorem claim_C10_witness :
    0 ≤ (computeMoldRisk [(⟨some 50⟩ : Reading)] 1).risk_score ∧
    (computeMoldRisk [(⟨some 50⟩ : Reading)] 1).risk_score ≤ 24 :=
  (claim_C10_score_bands [⟨some 50⟩] 1 (by decide)).1 (by decide)

/-! ## Claim C7 -/

set_option maxRecDepth 40000 in
/-- C7: for plan TOU and for plan ULO, at every month, weekday and hour,
exactly one period of the selected schedule contains the hour, the scan
finds it (the fallback is never reached), and getCurrentRate returns its
published rate and label. -/
theorem claim_C7_period_coverage (d : JsDate) :
    touCoverageAt TOU_RATES d ∧ touCoverageAt ULO_RATES d ∧
    (getCurrentRate .TOU d).price_cents_per_kWh =
      (getTimeOfUseRate TOU_RATES d).price_cents_per_kWh ∧
    (getCurrentRate .TOU d).periodLabel = (getTimeOfUseRate TOU_RATES d).periodLabel ∧
    (getCurrentRate .ULO d).price_cents_per_kWh =
      (getTimeOfUseRate ULO_RATES d).price_cents_per_kWh ∧
    (getCurrentRate .ULO d).periodLabel = (getTimeOfUseRate ULO_RATES d).periodLabel := by
  obtain ⟨m, w, h⟩ := d
  revert m w h
  with_unfolding_all decide

/-! ## Claim C5 (corrected) -/

set_option maxRecDepth 10000 in
/-- C5 counterexample: with the same housing type and price, a heating
input one degree from target yields strictly larger savings than a
cooling input two degrees from target, so savings is not non-decreasing
in the temperature gap across modes. -/
theorem claim_C5_counterexample :
    (estimateCost costHeat1).deltaT ≤ (estimateCost costCool2).deltaT ∧
    (estimateCost costCool2).savings < (estimateCost costHeat1).savings := by
  with_unfolding_all decide

/-- The savings field as a closed-form conditional. -/
theorem estimateCost_savings_eq (tin tgt price : ℚ) (ht : HousingType) :
    (estimateCost (mkCostInput tin tgt price ht)).savings =
      round4 (if tin > tgt then kWhPerDegC ht * |tgt - tin| / 2.5 * (price / 100)
        else if tin < tgt then kWhPerDegC ht * |tgt - tin| * (price / 100) else 0) := by
  simp only [estimateCost, mkCostInput, sub_zero]

/-- C5 (amended): for fixed housing type and fixed nonnegative price,
and for two inputs on the same side of the target (both needing heating
or both needing cooling, boundary inclusive), savings is non-decreasing
in the temperature gap |Tin - target|. -/
theorem claim_C5_savings_monotone (ht : HousingType) (price tin1 tgt1 tin2 tgt2 : ℚ)
    (hp : 0 ≤ price)
    (hmode : (tin1 ≤ tgt1 ∧ tin2 ≤ tgt2) ∨ (tgt1 ≤ tin1 ∧ tgt2 ≤ tin2))
    (hd : |tgt1 - tin1| ≤ |tgt2 - tin2|) :
    (estimateCost (mkCostInput tin1 tgt1 price ht)).savings ≤
    (estimateCost (mkCostInput tin2 tgt2 price ht)).savings := by
  rw [estimateCost_savings_eq, estimateCost_savings_eq]
  apply round4_mono
  have hk := kWhPerDegC_nonneg ht
  have h1 : (0:ℚ) ≤ |tgt1 - tin1| := abs_nonneg _
  have h2 : (0:ℚ) ≤ |tgt2 - tin2| := abs_nonneg _
  have hpc : (0:ℚ) ≤ price / 100 := div_nonneg hp (by norm_num)
  rcases hmode with ⟨ha, hb⟩ | ⟨ha, hb⟩
  · rw [if_neg (not_lt.mpr ha), if_neg (not_lt.mpr hb)]
    by_cases c1 : tin1 < tgt1 <;> by_cases c2 : tin2 < tgt2
    · rw [if_pos c1, if_pos c2]
      exact mul_le_mul_of_nonneg_right (mul_le_mul_of_nonneg_left hd hk) hpc
    · have hd2 : |tgt2 - tin2| = 0 := by
        rw [show tgt2 - tin2 = 0 from by linarith [not_lt.mp c2]]
        exact abs_zero
      have hd1 : |tgt1 - tin1| = 0 := le_antisymm (hd2 ▸ hd) h1
      rw [if_pos c1, if_neg c2, hd1]
      simp
    · rw [if_neg c1, if_pos c2]
      exact mul_nonneg (mul_nonneg hk h2) hpc
    · rw [if_neg c1, if_neg c2]
  · by_cases c1 : tin1 > tgt1 <;> by_cases c2 : tin2 > tgt2
    · rw [if_pos c1, if_pos c2]
      refine mul_le_mul_of_nonneg_right ?_ hpc
      have h25 : (0:ℚ) ≤ 2.5 := by norm_num
      exact div_le_div_of_nonneg_right (mul_le_mul_of_nonneg_left hd hk) h25
    · have hd2 : |tgt2 - tin2| = 0 := by
        rw [show tgt2 - tin2 = 0 from by linarith [not_lt.mp c2]]
        exact abs_zero
      have hd1 : |tgt1 - tin1| = 0 := le_antisymm (hd2 ▸ hd) h1
      rw [if_pos c1, if_neg c2, if_neg (show ¬tin2 < tgt2 from by linarith), hd1]
      simp
    · rw [if_neg c1, if_neg (show ¬tin1 < tgt1 from by linarith), if_pos c2]
      exact mul_nonneg (div_nonneg (mul_nonneg hk h2) (by norm_num)) hpc
    · rw [if_neg c1, if_neg (show ¬tin1 < tgt1 from by linarith), if_neg c2,
        if_neg (show ¬tin2 < tgt2 from by linarith)]

/-- Witness for C5: equal-to-target heating input versus a three-degree
heating input, apartment profile, price 10. -/
theorem claim_C5_witness :
    (estimateCost (mkCostInput 20 20 10 .apartment)).savings ≤
    (estimateCost (mkCostInput 18 21 10 .apartment)).savings :=
  claim_C5_savings_monotone .apartment 10 20 20 18 21 (by decide)
    (Or.inl ⟨by decide, by decide⟩) (by simp)

/-! ## Claim C6 -/

/-- C6: with equal indoor and outdoor temperature the pre-boost estimate
collapses to the outdoor relative humidity exactly, and the estimator
reports HIGH confidence (temperature gap 0 is below the 5-degree
threshold). -/
theorem claim_C6_humidity_roundtrip (t rh boost : ℝ) :
    preBoostEstimate t t rh = rh ∧
    (estimateIndoorHumidity (some t) (some t) (some rh) boost).confidence = .HIGH := by
  have hpos : 0 < saturationVaporPressure t := by
    unfold saturationVaporPressure
    positivity
  have hne : saturationVaporPressure t ≠ 0 := ne_of_gt hpos
  constructor
  · unfold preBoostEstimate
    field_simp
    ring
  · simp [estimateIndoorHumidity]

/-! ## Claim C1 -/

/-- C1: whenever the mold risk level is HIGH, the outdoor-drier test is
not false (true or unknown), and no rain is expected, the recommendation
is OPEN_WINDOW with HIGH confidence, at every clock hour and regardless
of the comfort band. -/
theorem claim_C1_mold_override (i : RecInput) (hour : Fin 24) (now : ℤ)
    (hmold : i.moldRiskLevel = .HIGH)
    (hdrier : outdoorDrier (sanRH i.RHin) (sanRH i.RHout) ≠ some false)
    (hrain : isRainExpected i.forecast = false) :
    (getRecommendation i hour now).state = .OPEN_WINDOW ∧
    (getRecommendation i hour now).confidence = .HIGH := by
  have hdrier' : (outdoorDrier (sanRH i.RHin) (sanRH i.RHout) == some false) = false :=
    beq_eq_false_iff_ne.mpr hdrier
  simp [getRecommendation, recommendCore, sanitizeRec, hmold, hrain, hdrier']

/-- Witness for C1: end-to-end scenario C at noon. -/
theorem claim_C1_witness :
    (getRecommendation scenarioC 12 0).state = .OPEN_WINDOW ∧
    (getRecommendation scenarioC 12 0).confidence = .HIGH :=
  claim_C1_mold_override scenarioC 12 0 rfl (by decide) rfl

/-! ## Claim C2 (corrected) -/

/-- C2 counterexample: a NaN price survives sanitation unchanged — it is
not replaced by 10 (the source checks only `typeof`, not `isNaN`, for
the price). -/
theorem claim_C2_counterexample :
    (sanitizeRec nanPriceInput).price_cents_per_kWh = JNum.nan ∧
    (sanitizeRec nanPriceInput).price_cents_per_kWh ≠ JNum.num 10 := by
  exact ⟨rfl, by decide⟩

/-- C2 (amended): sanitation replaces null/NaN Tin by 21 and Tout by 10,
maps null/NaN RHin and RHout to null, replaces a non-numeric (null)
price by 10 while a NaN price is kept as NaN, and getRecommendation is
exactly the decision core applied to the sanitized input. -/
theorem claim_C2_sanitation (i : RecInput) :
    ((i.Tin = .nan ∨ i.Tin = .nullv) → (sanitizeRec i).Tin = 21) ∧
    ((i.Tout = .nan ∨ i.Tout = .nullv) → (sanitizeRec i).Tout = 10) ∧
    ((i.RHin = .nan ∨ i.RHin = .nullv) → (sanitizeRec i).RHin = none) ∧
    ((i.RHout = .nan ∨ i.RHout = .nullv) → (sanitizeRec i).RHout = none) ∧
    (i.price_cents_per_kWh = .nullv →
      (sanitizeRec i).price_cents_per_kWh = .num 10) ∧
    (i.price_cents_per_kWh = .nan → (sanitizeRec i).price_cents_per_kWh = .nan) ∧
    (∀ (hour : Fin 24) (now : ℤ),
      getRecommendation i hour now = recommendCore (sanitizeRec i) hour now) := by
  refine ⟨?_, ?_, ?_, ?_, ?_, ?_, fun _ _ => rfl⟩
  · rintro (h | h) <;> simp [sanitizeRec, sanTemp, h]
  · rintro (h | h) <;> simp [sanitizeRec, sanTemp, h]
  · rintro (h | h) <;> simp [sanitizeRec, sanRH, h]
  · rintro (h | h) <;> simp [sanitizeRec, sanRH, h]
  · intro h
    simp [sanitizeRec, sanPrice, h]
  · intro h
    simp [sanitizeRec, sanPrice, h]

/-- Witness for C2: the all-invalid input is sanitized to the defaults. -/
theorem claim_C2_witness :
    (sanitizeRec badInput).Tin = 21 ∧ (sanitizeRec badInput).Tout = 10 ∧
    (sanitizeRec badInput).RHin = none ∧ (sanitizeRec badInput).RHout = none ∧
    (sanitizeRec badInput).price_cents_per_kWh = .num 10 :=
  ⟨(claim_C2_sanitation badInput).1 (Or.inl rfl),
   (claim_C2_sanitation badInput).2.1 (Or.inr rfl),
   (claim_C2_sanitation badInput).2.2.1 (Or.inl rfl),
   (claim_C2_sanitation badInput).2.2.2.1 (Or.inr rfl),
   (claim_C2_sanitation badInput).2.2.2.2.1 rfl⟩

/-! ## Claim C8 (corrected) -/

/-- C8 counterexample: the decision reads the ambient clock, so two
calls with the identical input struct (a night comfort band and an
indoor temperature inside it but below the day band) return different
states at noon and at 23:00. -/
theorem claim_C8_counterexample :
    (getRecommendation scenarioNight 12 0).state ≠
      (getRecommendation scenarioNight 23 0).state := by
  with_unfolding_all decide

/-- C8 (amended): getRecommendation is deterministic once the ambient
clock readings are fixed — identical input struct, hour and now give the
same state, confidence and reason count. -/
theorem claim_C8_determinism (i1 i2 : RecInput) (h1 h2 : Fin 24) (n1 n2 : ℤ)
    (hi : i1 = i2) (hh : h1 = h2) (hn : n1 = n2) :
    (getRecommendation i1 h1 n1).state = (getRecommendation i2 h2 n2).state ∧
    (getRecommendation i1 h1 n1).confidence =
      (getRecommendation i2 h2 n2).confidence ∧
    (getRecommendation i1 h1 n1).reasons.length =
      (getRecommendation i2 h2 n2).reasons.length := by
  subst hi
  subst hh
  subst hn
  exact ⟨rfl, rfl, rfl⟩

/-- Witness for C8: two syntactically identical calls agree. -/
theorem claim_C8_witness :
    (getRecommendation scenarioC 12 0).state = (getRecommendation scenarioC 12 0).state ∧
    (getRecommendation scenarioC 12 0).confidence =
      (getRecommendation scenarioC 12 0).confidence ∧
    (getRecommendation scenarioC 12 0).reasons.length =
      (getRecommendation scenarioC 12 0).reasons.length :=
  claim_C8_determinism scenarioC scenarioC 12 12 0 0 rfl rfl rfl

end Goldilocks
